import Mathlib

/-!
Shallow embedding of the bnulwh/logrus record-dispatch core:
the Logger's level thresholds and Fatal/Panic families (logger.go),
the SimpleFormatter (simple_formatter.go), and the local-filesystem
rotation hook (hooks/lfs/lfs.go) together with the fan-out writers
it is configured with (io.MultiWriter from the Go standard library).

Go machine integers that matter here are level values (uint32); all
comparisons on them in the source are plain numeric comparisons that
never overflow, so levels are embedded as Nat. Byte slices are
embedded as String. Side effects (writes, exit, handlers) are
embedded as explicit event lists returned by the operations.
-/

namespace Logrus

/-- Log severity. Modelled from the spec: the `Level` type (a uint32) and its
constants live in upstream logrus files that are not part of src/; the spec
fixes the canonical numeric order Panic < Fatal < Error < Warn < Info <
Debug < Trace, lower value meaning higher severity, higher value meaning
more verbose. -/
abbrev Level := Nat

def PanicLevel : Level := 0
def FatalLevel : Level := 1
def ErrorLevel : Level := 2
def WarnLevel : Level := 3
def InfoLevel : Level := 4
def DebugLevel : Level := 5
def TraceLevel : Level := 6

/-- Modelled from the spec: `AllLevels`, the fixed closed set of valid
levels exposed by upstream logrus, ordered from most severe to most
verbose. -/
def AllLevels : List Level :=
  [PanicLevel, FatalLevel, ErrorLevel, WarnLevel, InfoLevel, DebugLevel, TraceLevel]

/-- Modelled from the spec: `Level.String` of upstream logrus renders each
level to its lowercase name ("warning" for WarnLevel), "unknown" otherwise. -/
def levelString (l : Level) : String :=
  if l == PanicLevel then "panic"
  else if l == FatalLevel then "fatal"
  else if l == ErrorLevel then "error"
  else if l == WarnLevel then "warning"
  else if l == InfoLevel then "info"
  else if l == DebugLevel then "debug"
  else if l == TraceLevel then "trace"
  else "unknown"

/-- A Go `error` value, abstracted to its message. -/
structure IOError where
  msg : String
deriving DecidableEq, Repr

/-- One observable byte delivery performed by the hook layer: a call to some
writer's `Write`, or an append to a file path. -/
inductive WriteEvent where
  | toWriter (id : Nat) (p : String)
  | toFile (path : String) (p : String)
deriving DecidableEq, Repr

/-- An underlying destination (e.g. one rotatelogs writer). `id` identifies
the destination; `writeErr` is the error its `Write` returns, if any;
`writeShort` models a `Write` that reports fewer bytes written than given. -/
structure BaseWriter where
  id : Nat
  writeErr : Option IOError
  writeShort : Bool
deriving DecidableEq, Repr

/-- Go's `io.ErrShortWrite`. -/
def errShortWrite : IOError := ⟨"short write"⟩

def BaseWriter.failsWrite (w : BaseWriter) : Bool :=
  w.writeErr.isSome || w.writeShort

def BaseWriter.failure (w : BaseWriter) : Option IOError :=
  match w.writeErr with
  | some e => some e
  | none => if w.writeShort then some errShortWrite else none

/-- Embedding of Go's `io.MultiWriter` `Write` loop (the standard-library
code that `ConfigLocalFileSystemLogger` composes its per-level destinations
with): writers are tried in sequence; a `Write` that returns an error stops
the loop with that error; a `Write` that reports a short count stops the
loop with `ErrShortWrite`; otherwise the loop continues. The returned list
records each `Write` call that was actually attempted, with its payload. -/
def multiWrite (ws : List BaseWriter) (p : String) : List WriteEvent × Option IOError :=
  match ws with
  | [] => ([], none)
  | w :: rest =>
    match w.writeErr with
    | some e => ([WriteEvent.toWriter w.id p], some e)
    | none =>
      if w.writeShort then ([WriteEvent.toWriter w.id p], some errShortWrite)
      else
        let r := multiWrite rest p
        (WriteEvent.toWriter w.id p :: r.1, r.2)

/-- An `io.Writer` value as the hook sees it: either a single underlying
destination or an `io.MultiWriter` over several. -/
inductive Writer where
  | base (w : BaseWriter)
  | multi (ws : List BaseWriter)
deriving DecidableEq, Repr

/-- A single `Write(msg)` call on a writer, as performed by the hook's
`ioWrite` (which discards the byte count, so a short write on a plain
writer is not an error there; inside a MultiWriter it is). -/
def Writer.write (w : Writer) (p : String) : List WriteEvent × Option IOError :=
  match w with
  | .base b => ([WriteEvent.toWriter b.id p], b.writeErr)
  | .multi ws => multiWrite ws p

/-- One log record as seen by a formatter. `Time` is the entry's timestamp
already rendered under the layout "2006-01-02 15:04:05.000" that
`SimpleFormatter.Format` applies to `entry.Time` (a `time.Time` is embedded
by that rendering). `Buffer` is `entry.Buffer`, the reusable output buffer:
`none` for a nil `*bytes.Buffer`, otherwise its current contents.
`ReportCaller` is the owning logger's flag `entry.Logger.ReportCaller`;
`HasCaller` is whether `entry.Caller != nil`; `CallerFile`, `CallerLine`
and `CallerFuncFull` are the caller frame's file path, line and the full
name reported by `entry.Caller.Func.Name()`. -/
structure Entry where
  Level : Level
  Time : String
  Message : String
  Buffer : Option String
  ReportCaller : Bool
  HasCaller : Bool
  CallerFile : String
  CallerLine : Nat
  CallerFuncFull : String
deriving DecidableEq, Repr

/-- Go's `fmt` verb `%8s`: right-justify in a field of width 8. -/
def padLeft8 (s : String) : String :=
  String.mk (List.replicate (8 - s.length) ' ') ++ s

/-- The ANSI prefix chosen by `SimpleFormatter.Format`'s level switch. -/
def ansiColorFor (l : Level) : String :=
  if l == TraceLevel || l == DebugLevel then "\x1b[34;1m"
  else if l == InfoLevel then "\x1b[32;1m"
  else if l == WarnLevel then "\x1b[35;1m"
  else if l == ErrorLevel || l == FatalLevel || l == PanicLevel then "\x1b[31;1m"
  else ""

/-- Splits a character list at a separator character; the resulting parts
carry no separator and empty parts are kept (so the last part is exactly
the text after the last separator, the whole text when none occurs). -/
def splitChar (sep : Char) : List Char → List String
  | [] => [""]
  | x :: xs =>
    let rest := splitChar sep xs
    if x == sep then "" :: rest
    else
      match rest with
      | [] => [String.mk [x]]
      | r :: rs => String.mk (x :: r.data) :: rs

/-- Source `getFuncName`: the full function name truncated to the part after
the last "."; the whole name when no "." occurs (Go's `strings.LastIndex`
returns -1 and the slice from position 0 is the whole string); "" for a
nil `*runtime.Func`. The non-nil case takes the name already extracted. -/
def getFuncName (fullOpt : Option String) : String :=
  match fullOpt with
  | some full => (splitChar '.' full.data).getLastD full
  | none => ""

/-- Go's `filepath.Base` for the paths that occur here: the last
slash-separated component; "." for the empty string. -/
def filepathBase (s : String) : String :=
  if s == "" then "."
  else (((splitChar '/' s.data).filter (fun c => c ≠ "")).getLastD "/")

/-- The bytes `SimpleFormatter.Format` APPENDS to its buffer for one entry:
optional ANSI color prefix, "[time] [%8s-level] ", optional caller block,
the message, optional ANSI reset, and a trailing newline. -/
def simpleFormatPayload (colored : Bool) (entry : Entry) : String :=
  (if colored then ansiColorFor entry.Level else "")
  ++ "[" ++ entry.Time ++ "] [" ++ padLeft8 (levelString entry.Level) ++ "] "
  ++ (if entry.ReportCaller && entry.HasCaller then
        "[ " ++ filepathBase entry.CallerFile ++ " : "
          ++ toString entry.CallerLine ++ " "
          ++ getFuncName (some entry.CallerFuncFull) ++ " ]"
      else "")
  ++ entry.Message
  ++ (if colored then "\x1b[0m" else "")
  ++ "\n"

/-- Result of one `Format(entry)` call: the byte slice returned, the
contents of `entry.Buffer` after the call (`Format` writes into the
entry's buffer when one is attached, so the attached buffer mutates), and
the error. -/
structure FormatResult where
  out : String
  newBuffer : Option String
  err : Option IOError
deriving DecidableEq, Repr

/-- Source `SimpleFormatter.Format`: uses `entry.Buffer` as the target buffer when
it is non-nil (else a fresh one), appends the payload, and returns
`b.Bytes()` — the WHOLE buffer, preexisting contents included. -/
def simpleFormat (colored : Bool) (entry : Entry) : FormatResult :=
  let payload := simpleFormatPayload colored entry
  match entry.Buffer with
  | some buf => ⟨buf ++ payload, some (buf ++ payload), none⟩
  | none => ⟨payload, none, none⟩

/-- Modelled from the spec: upstream logrus `TextFormatter` is outside
src/; the spec's formatter contract only requires a self-terminated
(newline) record and, with `DisableColors` set, no ANSI codes. It reuses
the entry's attached buffer like the other formatters. No claim depends on
its rendering detail. -/
def textFormat (disableColors : Bool) (entry : Entry) : FormatResult :=
  let payload :=
    (if disableColors then "" else ansiColorFor entry.Level)
    ++ levelString entry.Level ++ " " ++ entry.Time ++ " " ++ entry.Message ++ "\n"
  match entry.Buffer with
  | some buf => ⟨buf ++ payload, some (buf ++ payload), none⟩
  | none => ⟨payload, none, none⟩

/-- A `logrus.Formatter` interface value by concrete type: the in-repo
`SimpleFormatter` (field `Colored`), the upstream `TextFormatter` (field
`DisableColors`), or some external user implementation, which may fail;
the interface is open, so the hook's type switch can meet types it does
not know. -/
inductive Formatter where
  | simple (colored : Bool)
  | text (disableColors : Bool)
  | external (id : Nat) (out : String) (err : Option IOError)
deriving DecidableEq, Repr

/-- Dynamic dispatch of `Format(entry)` through the interface. -/
def Formatter.Format (f : Formatter) (entry : Entry) : FormatResult :=
  match f with
  | .simple colored => simpleFormat colored entry
  | .text disableColors => textFormat disableColors entry
  | .external _ out err => ⟨out, entry.Buffer, err⟩

/-- Whether the concrete formatter type has a color mode at all. -/
def Formatter.supportsColors (f : Formatter) : Bool :=
  match f with
  | .simple _ => true
  | .text _ => true
  | .external _ _ _ => false

/-- Whether the formatter, as configured, emits ANSI color codes. -/
def Formatter.colorsEnabled (f : Formatter) : Bool :=
  match f with
  | .simple colored => colored
  | .text disableColors => !disableColors
  | .external _ _ _ => false

/-- The identity of a `logger.ExitFunc` value: the default `os.Exit`
(terminate the process with the given status), or an injected function
tagged by an id. -/
inductive ExitBehavior where
  | osExit
  | custom (id : Nat)
deriving DecidableEq, Repr

/-- Observable actions of a `Logger` call, in program order. `logged l`
is the dispatch of one entry at level `l` (console write plus hook
delivery); `ranExitHandlers` is the `runHandlers()` call that runs the
process-exit-registered cleanup handlers (its body is upstream, modelled
from the spec as one opaque action); `exitInvoked f code` is the call of
exit function `f` with status `code`; `goPanic` is a language-level fault
raised by the callee itself. -/
inductive Event where
  | logged (l : Level)
  | ranExitHandlers
  | exitInvoked (f : ExitBehavior) (code : Int)
  | goPanic
deriving DecidableEq, Repr

/-- The `Logger` state the embedded operations read and write.
`ConsoleLevel`/`HookLevel` are the two thresholds (read and written through
atomics in the source; atomic load/store of a single value is plain access
here). `exitFunc` is the `ExitFunc` field, `none` for Go nil. The fields
not consulted by any embedded operation (Out, Hooks, Formatter, pools,
mutex) are omitted. -/
structure Logger where
  ConsoleLevel : Level
  HookLevel : Level
  exitFunc : Option ExitBehavior
deriving DecidableEq, Repr

/-- Source `Logger.consoleLevel`: atomic load of the console threshold. -/
def Logger.consoleLevel (logger : Logger) : Level := logger.ConsoleLevel

/-- Source `Logger.hookLevel`: atomic load of the hook threshold. -/
def Logger.hookLevel (logger : Logger) : Level := logger.HookLevel

/-- Source `Logger.IsLevelEnabled`: true when either threshold is numerically at
least the requested level. -/
def Logger.IsLevelEnabled (logger : Logger) (level : Level) : Bool :=
  decide (logger.consoleLevel ≥ level) || decide (logger.hookLevel ≥ level)

/-- Source `Logger.SetLevel(levels...)`: with at least one argument, store
`levels[0]` into both thresholds; with at least two, additionally store
`levels[1]` into the hook threshold; with none, store nothing. -/
def Logger.SetLevel (logger : Logger) (levels : List Level) : Logger :=
  let logger1 :=
    if levels.length > 0 then
      { logger with ConsoleLevel := levels.getD 0 0, HookLevel := levels.getD 0 0 }
    else logger
  if levels.length > 1 then { logger1 with HookLevel := levels.getD 1 0 } else logger1

/-- Source `Logger.GetLevel`: returns the console threshold. -/
def Logger.GetLevel (logger : Logger) : Level := logger.consoleLevel

/-- Source `Logger.Exit(code)`: run the registered exit handlers, then call
`ExitFunc` — substituting `os.Exit` first when the field is nil — with
`code`. -/
def Logger.Exit (logger : Logger) (code : Int) : List Event :=
  [Event.ranExitHandlers, Event.exitInvoked (logger.exitFunc.getD ExitBehavior.osExit) code]

/-- The level-gated logging step shared by the leveled methods: dispatch
one entry when the level is admitted, otherwise do nothing. The body of
`Entry.Log`/`Logf`/`Logln` is upstream; modelled from the spec, which
states the entry is formatted, written and handed to the hooks, and that
no language fault is raised by this component. -/
def Logger.logIfEnabled (logger : Logger) (level : Level) : List Event :=
  if logger.IsLevelEnabled level then [Event.logged level] else []

/-- Source `Logger.Fatal`: log if `FatalLevel` is admitted, then `Exit(1)`. -/
def Logger.Fatal (logger : Logger) : List Event :=
  logger.logIfEnabled FatalLevel ++ logger.Exit 1

/-- Source `Logger.Fatalf`: log if `FatalLevel` is admitted, then `Exit(1)`. -/
def Logger.Fatalf (logger : Logger) : List Event :=
  logger.logIfEnabled FatalLevel ++ logger.Exit 1

/-- Source `Logger.Fatalln`: log if `FatalLevel` is admitted, then `Exit(1)`. -/
def Logger.Fatalln (logger : Logger) : List Event :=
  logger.logIfEnabled FatalLevel ++ logger.Exit 1

/-- Source `Logger.FatalFn`: log if `FatalLevel` is admitted, then `Exit(1)`. -/
def Logger.FatalFn (logger : Logger) : List Event :=
  logger.logIfEnabled FatalLevel ++ logger.Exit 1

/-- Source `Logger.Panic`: log if `PanicLevel` is admitted; nothing else. -/
def Logger.Panic (logger : Logger) : List Event :=
  logger.logIfEnabled PanicLevel

/-- Source `Logger.Panicf`: log if `PanicLevel` is admitted; nothing else. -/
def Logger.Panicf (logger : Logger) : List Event :=
  logger.logIfEnabled PanicLevel

/-- Source `Logger.Panicln`: log if `PanicLevel` is admitted; nothing else. -/
def Logger.Panicln (logger : Logger) : List Event :=
  logger.logIfEnabled PanicLevel

/-- Source `Logger.PanicFn`: log if `PanicLevel` is admitted; nothing else. -/
def Logger.PanicFn (logger : Logger) : List Event :=
  logger.logIfEnabled PanicLevel

/-- Source `logrus.PathMap`: a Go map Level → path, embedded as an association
list (`none` at the hook for a nil map; lookup on nil yields not-found). -/
abbrev PathMap := List (Level × String)

/-- Source `logrus.WriterMap`: a Go map Level → io.Writer, embedded likewise. -/
abbrev WriterMap := List (Level × Writer)

/-- Source `LfsHook` state. `paths`/`writers` are `none` when the Go map field is
nil. `defaultWriter` is `none` for a nil `io.Writer` field. The mutex is
omitted (all embedded operations are whole, serialized steps). -/
structure LfsHook where
  paths : Option PathMap
  writers : Option WriterMap
  levels : List Level
  formatter : Formatter
  defaultPath : String
  defaultWriter : Option Writer
  hasDefaultPath : Bool
  hasDefaultWriter : Bool
deriving DecidableEq, Repr

/-- Source `&LfsHook{lock: new(sync.Mutex)}`: every other field at its Go zero
value. The zero `formatter` field is nil in Go; the constructor overwrites
it through `SetFormatter` before any use, so the placeholder stored here is
never observable (we use the hook package's `defaultFormatter` value). -/
def zeroLfsHook : LfsHook :=
  { paths := none, writers := none, levels := [],
    formatter := Formatter.text true,
    defaultPath := "", defaultWriter := none,
    hasDefaultPath := false, hasDefaultWriter := false }

/-- The hook package's `defaultFormatter`:
`&logrus.TextFormatter{DisableColors: true}`. -/
def defaultFormatter : Formatter := Formatter.text true

/-- Source `LfsHook.SetFormatter(formatter)`: a nil argument is replaced by
`defaultFormatter`; a `*logrus.TextFormatter` argument gets its
`DisableColors` field set to true; any other concrete type is stored
unchanged (the type switch has only the one case and no default). -/
def LfsHook.SetFormatter (hook : LfsHook) (formatter : Option Formatter) : LfsHook :=
  match formatter with
  | none => { hook with formatter := defaultFormatter }
  | some (Formatter.text _) => { hook with formatter := Formatter.text true }
  | some f => { hook with formatter := f }

/-- Source `LfsHook.SetDefaultPath(defaultPath)`. -/
def LfsHook.SetDefaultPath (hook : LfsHook) (p : String) : LfsHook :=
  { hook with defaultPath := p, hasDefaultPath := true }

/-- Source `LfsHook.SetDefaultWriter(defaultWriter)`. -/
def LfsHook.SetDefaultWriter (hook : LfsHook) (w : Writer) : LfsHook :=
  { hook with defaultWriter := some w, hasDefaultWriter := true }

/-- The dynamic type of the untyped `output` argument of
`NewLocalFileSystemHook`, as discriminated by its type switch: a string, a
single io.Writer, a PathMap, a WriterMap, or a value of any other type
(the interface argument is open; `other` carries the reflected type name
that the panic message would print). -/
inductive HookOutput where
  | str (path : String)
  | writer (w : Writer)
  | pathMap (m : PathMap)
  | writerMap (m : WriterMap)
  | other (typeName : String)
deriving DecidableEq, Repr

/-- Source `NewLocalFileSystemHook(output, formatter)`: build the zero hook, apply
`SetFormatter`, then switch on the output's type — string sets the default
path, io.Writer sets the default writer, PathMap/WriterMap install the map
and collect its keys into `hook.levels`, and any other type panics with
"unsupported level map type". The panic is embedded as `Except.error`. -/
def NewLocalFileSystemHook (output : HookOutput) (formatter : Option Formatter) :
    Except String LfsHook :=
  let hook := zeroLfsHook.SetFormatter formatter
  match output with
  | HookOutput.str s => Except.ok (hook.SetDefaultPath s)
  | HookOutput.writer w => Except.ok (hook.SetDefaultWriter w)
  | HookOutput.pathMap m =>
      Except.ok { hook with paths := some m, levels := m.map Prod.fst }
  | HookOutput.writerMap m =>
      Except.ok { hook with writers := some m, levels := m.map Prod.fst }
  | HookOutput.other typeName =>
      Except.error ("unsupported level map type: " ++ typeName)

/-- Source `hook.writers[entry.Level]` (lookup on a nil map finds nothing). -/
def LfsHook.lookupWriter (hook : LfsHook) (level : Level) : Option Writer :=
  match hook.writers with
  | none => none
  | some m => m.lookup level

/-- Source `hook.paths[entry.Level]` (lookup on a nil map finds nothing). -/
def LfsHook.lookupPath (hook : LfsHook) (level : Level) : Option String :=
  match hook.paths with
  | none => none
  | some m => m.lookup level

/-- A Go nil-interface `Write` call would fault; unreachable through the
package API (`hasDefaultWriter` is set only together with a writer). -/
def nilWriterFault : IOError := ⟨"runtime fault: write on nil writer"⟩

/-- Source `LfsHook.ioWrite(entry)`: resolve the writer — the level's mapped
writer, else the default writer when one was set, else return nil with no
write; then format the entry with the hook's formatter (a formatter error
is returned with no write) and `Write` the message, returning the write's
error. -/
def LfsHook.ioWrite (hook : LfsHook) (entry : Entry) : List WriteEvent × Option IOError :=
  let wRes : Option (Option Writer) :=
    match hook.lookupWriter entry.Level with
    | some w => some (some w)
    | none => if hook.hasDefaultWriter then some hook.defaultWriter else none
  match wRes with
  | none => ([], none)
  | some none => ([], some nilWriterFault)
  | some (some w) =>
    let r := hook.formatter.Format entry
    match r.err with
    | some e => ([], some e)
    | none => w.write r.out

/-- Source `LfsHook.fileWrite(entry)`: resolve the path — the level's mapped path,
else the default path when one was set, else return nil with no write;
create the directory, open the file in append mode (open failure is an
environment fault, modelled as absent here), format the entry (a formatter
error is returned with no write), append the message and return nil — the
file write's own error is discarded by the source. -/
def LfsHook.fileWrite (hook : LfsHook) (entry : Entry) : List WriteEvent × Option IOError :=
  let pOpt : Option String :=
    match hook.lookupPath entry.Level with
    | some p => some p
    | none => if hook.hasDefaultPath then some hook.defaultPath else none
  match pOpt with
  | none => ([], none)
  | some p =>
    let r := hook.formatter.Format entry
    match r.err with
    | some e => ([], some e)
    | none => ([WriteEvent.toFile p r.out], none)

/-- Source `LfsHook.Fire(entry)`: writer mode when the writers map is non-nil or a
default writer is set; else path mode when the paths map is non-nil or a
default path is set; else do nothing and return nil. -/
def LfsHook.Fire (hook : LfsHook) (entry : Entry) : List WriteEvent × Option IOError :=
  if hook.writers.isSome || hook.hasDefaultWriter then hook.ioWrite entry
  else if hook.paths.isSome || hook.hasDefaultPath then hook.fileWrite entry
  else ([], none)

/-- Source `LfsHook.Levels()`: returns `logrus.AllLevels`, ignoring the hook's
state. -/
def LfsHook.Levels (_ : LfsHook) : List Level := AllLevels

/-- The `WriterMap` literal built by `ConfigLocalFileSystemLogger`: each of
Debug/Info/Warn gets `io.MultiWriter(levelWriter, commonWriter)`, and
Error/Fatal/Panic share `io.MultiWriter(errorWriter, commonWriter)`. -/
def configWriterMap (debugW infoW warnW errorW commonW : BaseWriter) : WriterMap :=
  [(DebugLevel, Writer.multi [debugW, commonW]),
   (InfoLevel, Writer.multi [infoW, commonW]),
   (WarnLevel, Writer.multi [warnW, commonW]),
   (ErrorLevel, Writer.multi [errorW, commonW]),
   (FatalLevel, Writer.multi [errorW, commonW]),
   (PanicLevel, Writer.multi [errorW, commonW])]

/-- The hook `ConfigLocalFileSystemLogger` registers: the writer-map above
with formatter a zero-valued `SimpleFormatter` (field `Colored` false). The
rotating writers themselves come from the external rotation primitive and
are taken as parameters. -/
def configHook (debugW infoW warnW errorW commonW : BaseWriter) : Except String LfsHook :=
  NewLocalFileSystemHook
    (HookOutput.writerMap (configWriterMap debugW infoW warnW errorW commonW))
    (some (Formatter.simple false))

/-- One `Format` call as a state transition on the entry: the returned
bytes, and the entry with its buffer as the call left it. -/
def applySimpleFormat (colored : Bool) (entry : Entry) : Entry × String :=
  let r := simpleFormat colored entry
  ({ entry with Buffer := r.newBuffer }, r.out)

/-- The result of the (n+1)-th repeated `SimpleFormatter.Format` call on an
entry (the entry object is the same across calls, so buffer mutations
carry over). -/
def formatN (colored : Bool) (entry : Entry) : Nat → Entry × String
  | 0 => applySimpleFormat colored entry
  | n + 1 => applySimpleFormat colored (formatN colored entry n).1

/-- A concrete fixed entry: level Info, message "hello", fixed timestamp,
constant caller metadata, no attached buffer. -/
def helloEntry : Entry :=
  { Level := InfoLevel, Time := "2026-01-02 03:04:05.000", Message := "hello",
    Buffer := none, ReportCaller := true, HasCaller := true,
    CallerFile := "app/main.go", CallerLine := 42,
    CallerFuncFull := "main.run" }

/-- The format-then-write step of `ioWrite` once a writer is resolved: a
formatter error is returned with no write, otherwise the formatted bytes
go to the writer and its error is returned. -/
def writerDeliver (f : Formatter) (w : Writer) (entry : Entry) :
    List WriteEvent × Option IOError :=
  let r := f.Format entry
  match r.err with
  | some e => ([], some e)
  | none => w.write r.out

/-- The format-then-append step of `fileWrite` once a path is resolved: a
formatter error is returned with no write, otherwise the formatted bytes
are appended to the file and nil is returned. -/
def fileDeliver (f : Formatter) (p : String) (entry : Entry) :
    List WriteEvent × Option IOError :=
  let r := f.Format entry
  match r.err with
  | some e => ([], some e)
  | none => ([WriteEvent.toFile p r.out], none)

/-- Total extractor for a constructor result known to be `ok`. -/
def getOk (e : Except String LfsHook) : LfsHook :=
  match e with
  | Except.ok hook => hook
  | Except.error _ => zeroLfsHook

/-- A logger whose two thresholds are both `PanicLevel`, so `FatalLevel`
is admitted by neither, with a nil `ExitFunc`. -/
def quietLogger : Logger :=
  { ConsoleLevel := PanicLevel, HookLevel := PanicLevel, exitFunc := none }

/-- A concrete Error-level entry with no attached buffer. -/
def errorEntry : Entry :=
  { Level := ErrorLevel, Time := "2026-01-02 03:04:05.000", Message := "boom",
    Buffer := none, ReportCaller := false, HasCaller := false,
    CallerFile := "", CallerLine := 0, CallerFuncFull := "" }

/-- The fixed Info entry with an (empty) attached reusable buffer. -/
def bufferedEntry : Entry := { helloEntry with Buffer := some "" }

/-- A path-mode hook mapping only InfoLevel, built by the constructor. -/
def pathHookExample : LfsHook :=
  getOk (NewLocalFileSystemHook
    (HookOutput.pathMap [(InfoLevel, "/var/log/app.info.log")])
    (some (Formatter.simple false)))

/-- A writer-mode hook whose installed formatter is a `SimpleFormatter`
with `Colored` true, built by the constructor. -/
def coloredSimpleHook : LfsHook :=
  getOk (NewLocalFileSystemHook
    (HookOutput.writer (Writer.base ⟨7, none, false⟩))
    (some (Formatter.simple true)))

/-- The `ConfigLocalFileSystemLogger` hook over five concrete rotating
destinations (ids 0..4), where the shared "error" destination (id 3) fails
every write with "disk full" and the "common" destination (id 4) would
succeed. -/
def c5Hook : LfsHook :=
  getOk (configHook ⟨0, none, false⟩ ⟨1, none, false⟩ ⟨2, none, false⟩
    ⟨3, some ⟨"disk full"⟩, false⟩ ⟨4, none, false⟩)

/-- C1: for every Logger and every level L, `IsLevelEnabled(L)` returns true
if and only if the console threshold is numerically at least L or the hook
threshold is numerically at least L, under the convention that higher
numeric values represent more verbose levels. -/
theorem C1_isLevelEnabled_iff (logger : Logger) (level : Level) :
    logger.IsLevelEnabled level = true ↔
      logger.consoleLevel ≥ level ∨ logger.hookLevel ≥ level := by
  simp [Logger.IsLevelEnabled]

/-- C8: `SetLevel(c)` sets both thresholds to c; `SetLevel(c, h)` sets the
console threshold to c and the hook threshold to h; `SetLevel()` with no
arguments leaves the logger unchanged. -/
theorem C8_setLevel_semantics (logger : Logger) (c hk : Level) :
    (logger.SetLevel [c]).consoleLevel = c
  ∧ (logger.SetLevel [c]).hookLevel = c
  ∧ (logger.SetLevel [c, hk]).consoleLevel = c
  ∧ (logger.SetLevel [c, hk]).hookLevel = hk
  ∧ logger.SetLevel [] = logger := by
  refine ⟨?_, ?_, ?_, ?_, ?_⟩ <;>
    simp [Logger.SetLevel, Logger.consoleLevel, Logger.hookLevel]

/-- C2: each Fatal-family method ends in `Exit(1)` — which runs the
registered exit handlers and then the configured exit function, the nil
default being process termination (`os.Exit`) with status 1 —
unconditionally: when `FatalLevel` is admitted by neither threshold, the
call performs exactly `Exit(1)` and logs nothing. -/
theorem C2_fatal_always_exits (logger : Logger) :
    (logger.Exit 1 <:+ logger.Fatal)
  ∧ (logger.Exit 1 <:+ logger.Fatalf)
  ∧ (logger.Exit 1 <:+ logger.Fatalln)
  ∧ (logger.Exit 1 <:+ logger.FatalFn)
  ∧ logger.Exit 1 = [Event.ranExitHandlers,
      Event.exitInvoked (logger.exitFunc.getD ExitBehavior.osExit) 1]
  ∧ (logger.IsLevelEnabled FatalLevel = false →
      logger.Fatal = logger.Exit 1 ∧ ∀ l, Event.logged l ∉ logger.Fatal) := by
  refine ⟨⟨_, rfl⟩, ⟨_, rfl⟩, ⟨_, rfl⟩, ⟨_, rfl⟩, rfl, fun hdis => ?_⟩
  have hnil : logger.logIfEnabled FatalLevel = [] := by
    simp [Logger.logIfEnabled, hdis]
  constructor
  · simp [Logger.Fatal, hnil]
  · intro l
    simp [Logger.Fatal, Logger.Exit, hnil]

/-- C2 witness: a logger whose thresholds admit nothing and whose exit
function is nil still performs exactly `Exit(1)` on `Fatal`. -/
theorem C2_fatal_always_exits_witness :
    quietLogger.Fatal = quietLogger.Exit 1 :=
  ((C2_fatal_always_exits quietLogger).2.2.2.2.2 (by decide)).1

/-- C3: the four Panic-family methods coincide; each logs one entry exactly
when `PanicLevel` is admitted, never runs exit handlers, never invokes any
exit function, and never raises a language-level fault itself. -/
theorem C3_panic_family_returns_normally (logger : Logger) :
    logger.Panicf = logger.Panic
  ∧ logger.Panicln = logger.Panic
  ∧ logger.PanicFn = logger.Panic
  ∧ (∀ f c, Event.exitInvoked f c ∉ logger.Panic)
  ∧ Event.ranExitHandlers ∉ logger.Panic
  ∧ Event.goPanic ∉ logger.Panic
  ∧ (Event.logged PanicLevel ∈ logger.Panic ↔
      logger.IsLevelEnabled PanicLevel = true) := by
  cases hEn : logger.IsLevelEnabled PanicLevel <;>
    simp [Logger.Panic, Logger.Panicf, Logger.Panicln, Logger.PanicFn,
      Logger.logIfEnabled, hEn]

/-- C7: the constructor accepts exactly a string path, a single writer, a
PathMap or a WriterMap — each yields a hook — and panics at construction
time (embedded as `Except.error`) on a value of any other type, with the
"unsupported level map type" message. -/
theorem C7_constructor_input_validation (formatter : Option Formatter) :
    (∀ s, ∃ hook, NewLocalFileSystemHook (HookOutput.str s) formatter
        = Except.ok hook)
  ∧ (∀ w, ∃ hook, NewLocalFileSystemHook (HookOutput.writer w) formatter
        = Except.ok hook)
  ∧ (∀ m, ∃ hook, NewLocalFileSystemHook (HookOutput.pathMap m) formatter
        = Except.ok hook)
  ∧ (∀ m, ∃ hook, NewLocalFileSystemHook (HookOutput.writerMap m) formatter
        = Except.ok hook)
  ∧ (∀ t, NewLocalFileSystemHook (HookOutput.other t) formatter
        = Except.error ("unsupported level map type: " ++ t)) :=
  ⟨fun _ => ⟨_, rfl⟩, fun _ => ⟨_, rfl⟩, fun _ => ⟨_, rfl⟩,
   fun _ => ⟨_, rfl⟩, fun _ => rfl⟩

/-- C10: `Levels()` ignores the hook's state and returns the complete
`AllLevels` list — all seven severities — for every hook, in particular for
every hook the constructor returns, whatever input shape was used and
whichever levels were mapped. -/
theorem C10_levels_returns_all (hook : LfsHook) :
    hook.Levels = AllLevels
  ∧ AllLevels = [PanicLevel, FatalLevel, ErrorLevel, WarnLevel,
      InfoLevel, DebugLevel, TraceLevel]
  ∧ (∀ output formatter h2,
      NewLocalFileSystemHook output formatter = Except.ok h2 →
        h2.Levels = AllLevels) :=
  ⟨rfl, rfl, fun _ _ _ _ => rfl⟩

/-- C10 witness: a hook constructed from a single path string reports all
seven levels. -/
theorem C10_levels_returns_all_witness :
    ((zeroLfsHook.SetFormatter none).SetDefaultPath "/var/log/app").Levels
      = AllLevels :=
  (C10_levels_returns_all zeroLfsHook).2.2 (HookOutput.str "/var/log/app")
    none _ rfl

/-- C4 counterexample: a `SimpleFormatter` with `Colored` true is a
color-capable concrete type, yet `SetFormatter` installs it with its color
mode still on, and the hook's file destination then receives bytes opening
with the ANSI escape `ESC [`. -/
theorem C4_counterexample :
    Formatter.supportsColors (Formatter.simple true) = true
  ∧ Formatter.colorsEnabled
      ((zeroLfsHook.SetFormatter (some (Formatter.simple true))).formatter)
      = true
  ∧ coloredSimpleHook.Fire helloEntry
      = ([WriteEvent.toWriter 7 (simpleFormatPayload true helloEntry)], none)
  ∧ (simpleFormatPayload true helloEntry).take 2 = "\x1b[" := by
  refine ⟨rfl, rfl, ?_, ?_⟩ <;> decide

/-- C4 amended: `SetFormatter` replaces a nil formatter by the default text
formatter with colors disabled, and forces `DisableColors` on when the
formatter's concrete type is the text formatter; a formatter of any other
concrete type — including the color-capable `SimpleFormatter` — is
installed unchanged, its color mode not forced off. -/
theorem C4_setFormatter_semantics (hook : LfsHook) :
    (hook.SetFormatter none).formatter = defaultFormatter
  ∧ defaultFormatter = Formatter.text true
  ∧ Formatter.colorsEnabled defaultFormatter = false
  ∧ (∀ dc, (hook.SetFormatter (some (Formatter.text dc))).formatter
        = Formatter.text true)
  ∧ (∀ c, (hook.SetFormatter (some (Formatter.simple c))).formatter
        = Formatter.simple c)
  ∧ (∀ i o e, (hook.SetFormatter (some (Formatter.external i o e))).formatter
        = Formatter.external i o e) :=
  ⟨rfl, rfl, rfl, fun _ => rfl, fun _ => rfl, fun _ _ _ => rfl⟩

/-- C5 counterexample: in the `ConfigLocalFileSystemLogger` wiring with the
shared error destination (id 3) failing, firing one Error-level entry
attempts only the failed destination: the error is returned, but the
common destination (id 4) in the same fan-out is never attempted — no
event for id 4 occurs. -/
theorem C5_counterexample :
    configHook ⟨0, none, false⟩ ⟨1, none, false⟩ ⟨2, none, false⟩
        ⟨3, some ⟨"disk full"⟩, false⟩ ⟨4, none, false⟩ = Except.ok c5Hook
  ∧ c5Hook.Fire errorEntry
      = ([WriteEvent.toWriter 3 (simpleFormatPayload false errorEntry)],
         some ⟨"disk full"⟩)
  ∧ WriteEvent.toWriter 4 (simpleFormatPayload false errorEntry)
      ∉ (c5Hook.Fire errorEntry).1 := by
  refine ⟨rfl, ?_, ?_⟩ <;> decide

/-- C5 amended: the MultiWriter fan-out writes the same bytes to each
destination in sequence and returns the first I/O error (a short write
counting as `ErrShortWrite`), but it stops at the first failing
destination — the remaining destinations in the fan-out are NOT attempted;
when every destination succeeds (in particular the merged error writer
followed by the common writer) each receives one write with the identical
payload and no error is returned. -/
theorem C5_fanout_semantics (ws : List BaseWriter) (p : String) :
    (multiWrite ws p).1 =
      ((ws.takeWhile fun w => !w.failsWrite)
        ++ (ws.dropWhile fun w => !w.failsWrite).take 1).map
        (fun w => WriteEvent.toWriter w.id p)
  ∧ (multiWrite ws p).2 = (ws.find? BaseWriter.failsWrite).bind BaseWriter.failure
  ∧ (∀ eW cW : BaseWriter, eW.failsWrite = false → cW.failsWrite = false →
      multiWrite [eW, cW] p
        = ([WriteEvent.toWriter eW.id p, WriteEvent.toWriter cW.id p], none)) := by
  refine ⟨?_, ?_, ?_⟩
  · induction ws with
    | nil => simp [multiWrite]
    | cons w rest ih =>
      cases hE : w.writeErr with
      | some e =>
        simp [multiWrite, hE, BaseWriter.failsWrite, List.takeWhile, List.dropWhile]
      | none =>
        cases hS : w.writeShort with
        | true =>
          simp [multiWrite, hE, hS, BaseWriter.failsWrite, List.takeWhile,
            List.dropWhile]
        | false =>
          simp [multiWrite, hE, hS, BaseWriter.failsWrite, List.takeWhile,
            List.dropWhile, ih]
  · induction ws with
    | nil => simp [multiWrite]
    | cons w rest ih =>
      cases hE : w.writeErr with
      | some e =>
        simp [multiWrite, hE, BaseWriter.failsWrite, BaseWriter.failure,
          List.find?]
      | none =>
        cases hS : w.writeShort with
        | true =>
          simp [multiWrite, hE, hS, BaseWriter.failsWrite, BaseWriter.failure,
            List.find?]
        | false =>
          simp [multiWrite, hE, hS, BaseWriter.failsWrite, List.find?, ih]
  · intro eW cW hE hC
    have hE2 : eW.writeErr = none ∧ eW.writeShort = false := by
      revert hE; simp [BaseWriter.failsWrite]
    have hC2 : cW.writeErr = none ∧ cW.writeShort = false := by
      revert hC; simp [BaseWriter.failsWrite]
    simp [multiWrite, hE2.1, hE2.2, hC2.1, hC2.2]

/-- C5 witness: two concretely succeeding destinations each receive the
identical payload, in order, with no error. -/
theorem C5_fanout_semantics_witness :
    multiWrite [⟨3, none, false⟩, ⟨4, none, false⟩] "x"
      = ([WriteEvent.toWriter 3 "x", WriteEvent.toWriter 4 "x"], none) :=
  (C5_fanout_semantics [] "x").2.2 ⟨3, none, false⟩ ⟨4, none, false⟩ rfl rfl

/-- C6: when the entry's level has no mapped writer and no default writer
is set, and no mapped path and no default path is set, `Fire` performs no
write and returns nil; otherwise the formatted bytes go to the
level-specific writer if mapped, else the default writer; in path mode,
to the level-specific path if mapped, else the default path. -/
theorem C6_fire_resolution (hook : LfsHook) (entry : Entry) :
    (hook.lookupWriter entry.Level = none → hook.hasDefaultWriter = false →
     hook.lookupPath entry.Level = none → hook.hasDefaultPath = false →
        hook.Fire entry = ([], none))
  ∧ (∀ w, hook.lookupWriter entry.Level = some w →
        hook.Fire entry = writerDeliver hook.formatter w entry)
  ∧ (∀ w, hook.lookupWriter entry.Level = none → hook.hasDefaultWriter = true →
        hook.defaultWriter = some w →
        hook.Fire entry = writerDeliver hook.formatter w entry)
  ∧ (∀ p, hook.writers = none → hook.hasDefaultWriter = false →
        hook.lookupPath entry.Level = some p →
        hook.Fire entry = fileDeliver hook.formatter p entry)
  ∧ (hook.writers = none → hook.hasDefaultWriter = false →
        hook.lookupPath entry.Level = none → hook.hasDefaultPath = true →
        hook.Fire entry = fileDeliver hook.formatter hook.defaultPath entry) := by
  refine ⟨?_, ?_, ?_, ?_, ?_⟩
  · intro h1 h2 h3 h4
    cases hws : hook.writers with
    | some m =>
      simp [LfsHook.Fire, LfsHook.ioWrite, hws, h1, h2]
    | none =>
      cases hps : hook.paths with
      | some pm =>
        simp [LfsHook.Fire, LfsHook.fileWrite, hws, hps, h2, h3, h4]
      | none =>
        simp [LfsHook.Fire, hws, hps, h2, h4]
  · intro w hw
    cases hws : hook.writers with
    | none => simp [LfsHook.lookupWriter, hws] at hw
    | some m =>
      simp [LfsHook.Fire, LfsHook.ioWrite, writerDeliver, hws, hw]
  · intro w h1 h2 h3
    simp [LfsHook.Fire, LfsHook.ioWrite, writerDeliver, h1, h2, h3]
  · intro p hwn h2 hp
    cases hps : hook.paths with
    | none => simp [LfsHook.lookupPath, hps] at hp
    | some pm =>
      simp [LfsHook.Fire, LfsHook.fileWrite, fileDeliver, hwn, h2, hp, hps]
  · intro hwn h2 h3 h4
    simp [LfsHook.Fire, LfsHook.fileWrite, fileDeliver, hwn, h2, h3, h4]

/-- C6 witness: the path-mode hook mapping only InfoLevel delivers a fired
Info entry to that level's file. -/
theorem C6_fire_resolution_witness :
    pathHookExample.Fire helloEntry
      = fileDeliver pathHookExample.formatter "/var/log/app.info.log" helloEntry :=
  (C6_fire_resolution pathHookExample helloEntry).2.2.2.1
    "/var/log/app.info.log" rfl rfl (by decide)

/-- C9 counterexample: on the fixed Info/"hello" entry that carries an
attached reusable buffer, the second `SimpleFormatter.Format` call returns
different bytes than the first — `Format` appends into the entry's buffer
and returns the whole buffer, so the result depends on how many times the
entry was already formatted. -/
theorem C9_counterexample :
    (formatN false bufferedEntry 1).2 ≠ (formatN false bufferedEntry 0).2 := by
  decide

/-- C9 amended: for a fixed entry whose attached buffer is nil,
`SimpleFormatter.Format` leaves the entry unchanged and every repeated
call returns the identical byte sequence; with a non-nil attached buffer
the output accumulates in that buffer across calls. -/
theorem C9_format_deterministic (colored : Bool) (entry : Entry)
    (h : entry.Buffer = none) :
    ∀ n, (formatN colored entry n).1 = entry
       ∧ (formatN colored entry n).2 = simpleFormatPayload colored entry := by
  have hstep : applySimpleFormat colored entry
      = (entry, simpleFormatPayload colored entry) := by
    cases entry
    simp_all [applySimpleFormat, simpleFormat]
  intro n
  induction n with
  | zero => simp [formatN, hstep]
  | succ n ih =>
    constructor
    · simp [formatN, ih.1, hstep]
    · simp [formatN, ih.1, hstep]

/-- C9 witness: the fixed Info/"hello" entry with no attached buffer yields
the same bytes on its second format call as on its first. -/
theorem C9_format_deterministic_witness :
    (formatN false helloEntry 1).2 = simpleFormatPayload false helloEntry :=
  ((C9_format_deterministic false helloEntry rfl) 1).2

end Logrus
